import Mathlib

/-!
A verification development for the Terraform drift-detector's resource
reconciliation engine.  The definitions below are a shallow embedding of
the Python sources of the repository (`src/drift_detector/core.py`,
`src/drift_detector/comparators/*.py`, `src/drift_detector/fetchers/base.py`),
translated function by function.  Python dictionaries are modelled as
association lists, Python sets as insertion-ordered duplicate-free lists,
and Python runtime values as the inductive type `PyVal` below.
-/

namespace DriftSpec

/-- Model of a Python runtime value as it occurs in attribute bags:
`None`, strings, integers, booleans, lists and string-keyed dicts. -/
inductive PyVal where
  | vnone : PyVal
  | vstr (s : String) : PyVal
  | vint (n : Int) : PyVal
  | vbool (b : Bool) : PyVal
  | vlist (xs : List PyVal) : PyVal
  | vdict (kvs : List (String × PyVal)) : PyVal
deriving Repr

/-- An attribute bag: a Python dict from field name to value. -/
abbrev Bag := List (String × PyVal)

/-- First-match lookup in an association list (Python `dict` access;
Python dict keys are unique, so first-match lookup is faithful). -/
def pyLookup (k : String) : Bag → Option PyVal
  | [] => Option.none
  | (k2, v) :: rest => if k2 = k then some v else pyLookup k rest

/-- Python's `d.get(k)`: returns `None` when the key is missing. -/
def pyGet (b : Bag) (k : String) : PyVal :=
  (pyLookup k b).getD PyVal.vnone

/-- Python's `d.get(k, default)`. -/
def pyGetD (b : Bag) (k : String) (dflt : PyVal) : PyVal :=
  (pyLookup k b).getD dflt

/-- Python's `k in d` for dicts. -/
def pyHasKey (b : Bag) (k : String) : Bool :=
  (pyLookup k b).isSome

mutual
/-- Python `==` on modelled values.  Mirrors CPython semantics on the
modelled fragment: `True == 1`, `False == 0`, lists compare pointwise and
dicts compare as unordered key-value maps. -/
def pyEq : PyVal → PyVal → Bool
  | .vnone, .vnone => true
  | .vstr a, .vstr b => a = b
  | .vint a, .vint b => a = b
  | .vbool a, .vbool b => a = b
  | .vbool a, .vint b => (if a then (1 : Int) else 0) = b
  | .vint a, .vbool b => a = (if b then (1 : Int) else 0)
  | .vlist xs, .vlist ys => pyEqList xs ys
  | .vdict xs, .vdict ys => xs.length = ys.length && pyEqEntries xs ys
  | _, _ => false

/-- Pointwise Python `==` on lists. -/
def pyEqList : List PyVal → List PyVal → Bool
  | [], [] => true
  | x :: xs, y :: ys => pyEq x y && pyEqList xs ys
  | _, _ => false

/-- Every entry of the first dict has a Python-equal value in the second. -/
def pyEqEntries : List (String × PyVal) → List (String × PyVal) → Bool
  | [], _ => true
  | (k, v) :: rest, ys =>
      (match pyLookup k ys with
       | some w => pyEq v w
       | Option.none => false) && pyEqEntries rest ys
end

/-- Python truthiness (`bool(v)`) on modelled values. -/
def pyTruthy : PyVal → Bool
  | .vnone => false
  | .vstr s => s != ""
  | .vint n => n != 0
  | .vbool b => b
  | .vlist xs => !xs.isEmpty
  | .vdict kvs => !kvs.isEmpty

/-- Python's `a or b`: the first operand when truthy, else the second. -/
def pyOr (a b : PyVal) : PyVal :=
  if pyTruthy a then a else b

mutual
/-- Python `str(v)` on modelled values. -/
def pyStr : PyVal → String
  | .vnone => "None"
  | .vstr s => s
  | .vint n => toString n
  | .vbool b => if b then "True" else "False"
  | .vlist xs => "[" ++ pyReprJoin xs ++ "]"
  | .vdict kvs => "\x7b" ++ pyReprEntriesJoin kvs ++ "\x7d"

/-- Python `repr(v)` on modelled values (escape sequences inside strings
are not modelled; the modelled inputs contain no quotes or backslashes). -/
def pyRepr : PyVal → String
  | .vnone => "None"
  | .vstr s => "'" ++ s ++ "'"
  | .vint n => toString n
  | .vbool b => if b then "True" else "False"
  | .vlist xs => "[" ++ pyReprJoin xs ++ "]"
  | .vdict kvs => "\x7b" ++ pyReprEntriesJoin kvs ++ "\x7d"

/-- Comma-joined `repr`s of the elements of a list. -/
def pyReprJoin : List PyVal → String
  | [] => ""
  | [x] => pyRepr x
  | x :: y :: rest => pyRepr x ++ ", " ++ pyReprJoin (y :: rest)

/-- Comma-joined `repr`s of the entries of a dict. -/
def pyReprEntriesJoin : List (String × PyVal) → String
  | [] => ""
  | [(k, v)] => "'" ++ k ++ "': " ++ pyRepr v
  | (k, v) :: e :: rest =>
      "'" ++ k ++ "': " ++ pyRepr v ++ ", " ++ pyReprEntriesJoin (e :: rest)
end

/-- Python `s.startswith(p)` for strings. -/
def strStartsWith (s p : String) : Bool :=
  p.data.isPrefixOf s.data

/-- Python `s.endswith(p)` for strings. -/
def strEndsWith (s p : String) : Bool :=
  p.data.reverse.isPrefixOf s.data.reverse

/-- Python `needle in hay` substring test on character lists. -/
def listContainsSub (needle : List Char) : List Char → Bool
  | [] => needle.isEmpty
  | c :: rest => needle.isPrefixOf (c :: rest) || listContainsSub needle rest

/-- Python `needle in hay` substring test for strings. -/
def strContainsSub (hay needle : String) : Bool :=
  listContainsSub needle.data hay.data

/-- Python `s.lower()` (ASCII case folding suffices for the modelled data). -/
def strLower (s : String) : String :=
  String.mk (s.data.map Char.toLower)

/-- Split a character list at the first occurrence of a non-empty
separator, returning the parts before and after it. -/
def splitFirstAux (sep : List Char) : List Char → Option (List Char × List Char)
  | [] => Option.none
  | c :: rest =>
      if sep.isPrefixOf (c :: rest) then some ([], (c :: rest).drop sep.length)
      else match splitFirstAux sep rest with
           | some (b, a) => some (c :: b, a)
           | Option.none => Option.none

/-- All separator-split parts of a character list; `fuel` bounds the
number of splits (each split strictly shortens the remainder for a
non-empty separator). -/
def splitAllAux (sep : List Char) : Nat → List Char → List (List Char)
  | 0, l => [l]
  | fuel + 1, l =>
      match splitFirstAux sep l with
      | some (b, a) => b :: splitAllAux sep fuel a
      | Option.none => [l]

/-- Python `s.split(sep)` for a non-empty separator. -/
def strSplit (s sep : String) : List String :=
  (splitAllAux sep.data (s.data.length + 1) s.data).map String.mk

/-- Python `s.split(sep)[-1]` for a non-empty separator: the substring
after the last occurrence of `sep` (the whole string when absent). -/
def strLastSegment (s sep : String) : String :=
  (strSplit s sep).getLastD s

/-- Python `s.split(sep)[0]` for a non-empty separator: the substring
before the first occurrence of `sep` (the whole string when absent). -/
def strFirstSegment (s sep : String) : String :=
  (strSplit s sep).headD s

/-- Model of `.startswith` applied to a dynamically typed value: Python raises on
non-strings, which in the modelled call sites cannot happen for
well-formed state documents; non-strings answer `false` here. -/
def pyStartsWith (v : PyVal) (p : String) : Bool :=
  match v with
  | .vstr s => strStartsWith s p
  | _ => false

/-- Model of `split(":")[-1]` applied to a dynamically typed value (see
`pyStartsWith` for the treatment of non-strings). -/
def pyLastColonSegment (v : PyVal) : PyVal :=
  match v with
  | .vstr s => .vstr (strLastSegment s ":")
  | _ => v

/-! ## JSON model

The comparators call Python's standard-library `json.loads` and
`json.dumps`.  The two functions below model them on the fragment of
JSON actually carried by the repository's policy documents: objects,
arrays, strings without escape sequences, integer numerals, booleans and
null.  Fractional/exponent numerals and string escapes are outside the
modelled fragment. -/

/-- Comma-join a list of strings. -/
def joinComma : List String → String
  | [] => ""
  | [x] => x
  | x :: y :: rest => x ++ "," ++ joinComma (y :: rest)

/-- The `\x7b` character. -/
def lbrace : Char := Char.ofNat 123

/-- The `\x7d` character. -/
def rbrace : Char := Char.ofNat 125

/-- Skip JSON whitespace. -/
def skipWs : List Char → List Char
  | c :: rest =>
      if c = ' ' || c = '\t' || c = '\n' || c = '\r' then skipWs rest
      else c :: rest
  | [] => []

/-- Parse the body of a JSON string up to the closing quote. -/
def parseJsonStr (acc : List Char) : List Char → Option (String × List Char)
  | [] => Option.none
  | c :: rest =>
      if c = '"' then some (String.mk acc.reverse, rest)
      else if c = '\\' then Option.none
      else parseJsonStr (c :: acc) rest

/-- Parse a run of decimal digits into a natural number. -/
def parseDigits (acc : Nat) (seen : Bool) : List Char → Option (Nat × List Char)
  | c :: rest =>
      if c.isDigit then parseDigits (acc * 10 + (c.toNat - 48)) true rest
      else if seen then some (acc, c :: rest) else Option.none
  | [] => if seen then some (acc, []) else Option.none

mutual
/-- Parse one JSON value; `fuel` bounds the nesting depth. -/
def parseJsonVal (fuel : Nat) (cs : List Char) : Option (PyVal × List Char) :=
  match fuel with
  | 0 => Option.none
  | fuel + 1 =>
    match skipWs cs with
    | 't' :: 'r' :: 'u' :: 'e' :: rest => some (.vbool true, rest)
    | 'f' :: 'a' :: 'l' :: 's' :: 'e' :: rest => some (.vbool false, rest)
    | 'n' :: 'u' :: 'l' :: 'l' :: rest => some (.vnone, rest)
    | '"' :: rest =>
        match parseJsonStr [] rest with
        | some (s, r) => some (.vstr s, r)
        | Option.none => Option.none
    | c :: rest =>
        if c = '[' then
          match skipWs rest with
          | ']' :: r2 => some (.vlist [], r2)
          | r2 => match parseJsonItems fuel r2 with
                  | some (xs, r3) => some (.vlist xs, r3)
                  | Option.none => Option.none
        else if c = lbrace then
          match skipWs rest with
          | r2 =>
            if r2.headD ' ' = rbrace then some (.vdict [], r2.tail)
            else match parseJsonEntries fuel r2 with
                 | some (kvs, r3) => some (.vdict kvs, r3)
                 | Option.none => Option.none
        else if c = '-' then
          match parseDigits 0 false rest with
          | some (n, r2) =>
              if r2.headD ' ' = '.' || r2.headD ' ' = 'e' || r2.headD ' ' = 'E'
              then Option.none else some (.vint (-(n : Int)), r2)
          | Option.none => Option.none
        else if c.isDigit then
          match parseDigits 0 false (c :: rest) with
          | some (n, r2) =>
              if r2.headD ' ' = '.' || r2.headD ' ' = 'e' || r2.headD ' ' = 'E'
              then Option.none else some (.vint (n : Int), r2)
          | Option.none => Option.none
        else Option.none
    | [] => Option.none

/-- Parse the comma-separated items of a JSON array after `[`. -/
def parseJsonItems (fuel : Nat) (cs : List Char) : Option (List PyVal × List Char) :=
  match fuel with
  | 0 => Option.none
  | fuel + 1 =>
    match parseJsonVal fuel cs with
    | some (v, rest) =>
        match skipWs rest with
        | ',' :: r2 =>
            match parseJsonItems fuel r2 with
            | some (xs, r3) => some (v :: xs, r3)
            | Option.none => Option.none
        | ']' :: r2 => some ([v], r2)
        | _ => Option.none
    | Option.none => Option.none

/-- Parse the comma-separated entries of a JSON object after the opening
brace. -/
def parseJsonEntries (fuel : Nat) (cs : List Char) :
    Option (List (String × PyVal) × List Char) :=
  match fuel with
  | 0 => Option.none
  | fuel + 1 =>
    match skipWs cs with
    | '"' :: rest =>
      match parseJsonStr [] rest with
      | some (k, r1) =>
        match skipWs r1 with
        | ':' :: r2 =>
          match parseJsonVal fuel r2 with
          | some (v, r3) =>
              match skipWs r3 with
              | ',' :: r4 =>
                  match parseJsonEntries fuel r4 with
                  | some (kvs, r5) => some ((k, v) :: kvs, r5)
                  | Option.none => Option.none
              | c :: r4 =>
                  if c = rbrace then some ([(k, v)], r4) else Option.none
              | [] => Option.none
          | Option.none => Option.none
        | _ => Option.none
      | Option.none => Option.none
    | _ => Option.none
end

/-- Model of Python `json.loads` on the modelled JSON fragment: parses
the whole string (with surrounding whitespace) or fails. -/
def jsonLoads (s : String) : Option PyVal :=
  match parseJsonVal (s.length + 1) s.data with
  | some (v, rest) => if skipWs rest = [] then some v else Option.none
  | Option.none => Option.none

mutual
/-- Model of Python `json.dumps(v, sort_keys=True, separators=(",", ":"))`. -/
def jsonDumps : PyVal → String
  | .vnone => "null"
  | .vbool b => if b then "true" else "false"
  | .vint n => toString n
  | .vstr s => "\"" ++ s ++ "\""
  | .vlist xs => "[" ++ jsonDumpsItems xs ++ "]"
  | .vdict kvs =>
      "\x7b" ++
        joinComma (((jsonDumpsEntries kvs).mergeSort
          (fun a b => decide (a.1 ≤ b.1))).map
            (fun kv => "\"" ++ kv.1 ++ "\":" ++ kv.2)) ++
      "\x7d"

/-- Comma-joined serialisations of array items. -/
def jsonDumpsItems : List PyVal → String
  | [] => ""
  | [x] => jsonDumps x
  | x :: y :: rest => jsonDumps x ++ "," ++ jsonDumpsItems (y :: rest)

/-- Serialise each object entry's value, keeping the key. -/
def jsonDumpsEntries : List (String × PyVal) → List (String × String)
  | [] => []
  | (k, v) :: rest => (k, jsonDumps v) :: jsonDumpsEntries rest
end

/-! ## Comparators (`src/drift_detector/comparators/*.py`)

Each comparator returns the list of per-attribute drift details its
Python counterpart builds; a detail dict
`{"attribute": a, "state_value": sv, "live_value": lv}` is the structure
`DriftDetail`. -/

/-- One attribute difference as produced by the comparators.  The field
`attr` models the dict key `"attribute"` (a reserved word in Lean). -/
structure DriftDetail where
  attr : String
  state_value : String
  live_value : String
deriving Repr, DecidableEq

/-- Model of `compare_ec2_attributes` (ec2_comparators.py). -/
def compare_ec2_attributes (state_attrs live_attrs : Bag) : List DriftDetail :=
  (if !pyEq (pyGet state_attrs "instance_type") (pyGet live_attrs "InstanceType") then
    [⟨"instance_type", pyStr (pyGet state_attrs "instance_type"),
      pyStr (pyGet live_attrs "InstanceType")⟩] else []) ++
  (if !pyEq (pyGet state_attrs "id") (pyGet live_attrs "VpcId") then
    [⟨"vpc_id", pyStr (pyGet state_attrs "id"),
      pyStr (pyGet live_attrs "VpcId")⟩] else [])

/-- Model of `compare_s3_attributes` (s3_comparators.py). -/
def compare_s3_attributes (state_attrs live_attrs : Bag) : List DriftDetail :=
  if !pyEq (pyGet state_attrs "bucket") (pyGet live_attrs "Name") then
    [⟨"bucket_name", pyStr (pyGet state_attrs "bucket"),
      pyStr (pyGet live_attrs "Name")⟩] else []

/-- Model of `compare_dynamodb_attributes` (dynamodb_comparators.py). -/
def compare_dynamodb_attributes (state_attrs live_attrs : Bag) : List DriftDetail :=
  if !pyEq (pyGet state_attrs "name") (pyGet live_attrs "TableName") then
    [⟨"table_name", pyStr (pyGet state_attrs "name"),
      pyStr (pyGet live_attrs "TableName")⟩] else []

/-- Model of `_compare_lambda_function_attributes` (lambda_comparators.py). -/
def _compare_lambda_function_attributes (state_attrs live_attrs : Bag) :
    List DriftDetail :=
  if !pyEq (pyGet state_attrs "function_name") (pyGet live_attrs "FunctionName") then
    [⟨"function_name", pyStr (pyGet state_attrs "function_name"),
      pyStr (pyGet live_attrs "FunctionName")⟩] else []

/-- Model of `_compare_lambda_permission_attributes` (lambda_comparators.py); the
live principal may arrive as a scalar or wrapped as a dict with a
`Service` key, and is unwrapped before comparison. -/
def _compare_lambda_permission_attributes (state_attrs live_attrs : Bag) :
    List DriftDetail :=
  let live_principal := pyGet live_attrs "Principal"
  let live_principal_service :=
    match live_principal with
    | .vdict kvs => if pyHasKey kvs "Service" then pyGet kvs "Service" else live_principal
    | _ => live_principal
  (if !pyEq (pyGet state_attrs "statement_id") (pyGet live_attrs "Sid") then
    [⟨"statement_id", pyStr (pyGet state_attrs "statement_id"),
      pyStr (pyGet live_attrs "Sid")⟩] else []) ++
  (if !pyEq (pyGet state_attrs "action") (pyGet live_attrs "Action") then
    [⟨"action", pyStr (pyGet state_attrs "action"),
      pyStr (pyGet live_attrs "Action")⟩] else []) ++
  (if !pyEq (pyGet state_attrs "principal") live_principal_service then
    [⟨"principal", pyStr (pyGet state_attrs "principal"),
      pyStr live_principal⟩] else [])

/-- Model of `compare_lambda_attributes` (lambda_comparators.py). -/
def compare_lambda_attributes (state_attrs live_attrs : Bag)
    (resource_type : String) : List DriftDetail :=
  if resource_type ≠ "" && strStartsWith resource_type "aws_lambda_permission" then
    _compare_lambda_permission_attributes state_attrs live_attrs
  else
    _compare_lambda_function_attributes state_attrs live_attrs

/-- Model of `_compare_iam_role_attributes` (iam_comparators.py). -/
def _compare_iam_role_attributes (state_attrs live_attrs : Bag) : List DriftDetail :=
  if !pyEq (pyGet state_attrs "name") (pyGet live_attrs "RoleName") then
    [⟨"role_name", pyStr (pyGet state_attrs "name"),
      pyStr (pyGet live_attrs "RoleName")⟩] else []

/-- Model of `_compare_iam_policy_attributes` (iam_comparators.py). -/
def _compare_iam_policy_attributes (state_attrs live_attrs : Bag) : List DriftDetail :=
  if !pyEq (pyGet state_attrs "name") (pyGet live_attrs "PolicyName") then
    [⟨"policy_name", pyStr (pyGet state_attrs "name"),
      pyStr (pyGet live_attrs "PolicyName")⟩] else []

/-- The policy-document part of `_compare_iam_role_policy_attributes`:
when both sides are truthy the state side is parsed if it is a string
(`json.loads`, falling back to a raw comparison on parse failure) and
compared against the (never-parsed) live value; otherwise the raw values
are compared. -/
def iamPolicyDocDiffs (state_policy_doc live_policy_doc : PyVal) : List DriftDetail :=
  let detail : List DriftDetail :=
    [⟨"policy_document", pyStr state_policy_doc, pyStr live_policy_doc⟩]
  if pyTruthy state_policy_doc && pyTruthy live_policy_doc then
    match state_policy_doc with
    | .vstr t =>
        match jsonLoads t with
        | some state_policy_parsed =>
            if !pyEq state_policy_parsed live_policy_doc then detail else []
        | Option.none =>
            if !pyEq state_policy_doc live_policy_doc then detail else []
    | v =>
        if !pyEq v live_policy_doc then detail else []
  else
    if !pyEq state_policy_doc live_policy_doc then detail else []

/-- Model of `_compare_iam_role_policy_attributes` (iam_comparators.py). -/
def _compare_iam_role_policy_attributes (state_attrs live_attrs : Bag) :
    List DriftDetail :=
  (if !pyEq (pyGet state_attrs "role") (pyGet live_attrs "role_name") then
    [⟨"role_name", pyStr (pyGet state_attrs "role"),
      pyStr (pyGet live_attrs "role_name")⟩] else []) ++
  (if !pyEq (pyGet state_attrs "name") (pyGet live_attrs "policy_name") then
    [⟨"policy_name", pyStr (pyGet state_attrs "name"),
      pyStr (pyGet live_attrs "policy_name")⟩] else []) ++
  iamPolicyDocDiffs (pyGet state_attrs "policy") (pyGet live_attrs "policy")

/-- Model of `_compare_iam_openid_connect_provider_attributes` (iam_comparators.py). -/
def _compare_iam_openid_connect_provider_attributes (state_attrs live_attrs : Bag) :
    List DriftDetail :=
  if !pyEq (pyGet state_attrs "arn") (pyGet live_attrs "arn") then
    [⟨"provider_arn", pyStr (pyGet state_attrs "arn"),
      pyStr (pyGet live_attrs "arn")⟩] else []

/-- Model of `compare_iam_attributes` (iam_comparators.py): the inner dispatch,
checking `aws_iam_role_policy` before `aws_iam_role`. -/
def compare_iam_attributes (state_attrs live_attrs : Bag) (resource_type : String) :
    List DriftDetail :=
  if strStartsWith resource_type "aws_iam_role_policy" then
    _compare_iam_role_policy_attributes state_attrs live_attrs
  else if strStartsWith resource_type "aws_iam_role" then
    _compare_iam_role_attributes state_attrs live_attrs
  else if strStartsWith resource_type "aws_iam_policy" then
    _compare_iam_policy_attributes state_attrs live_attrs
  else if strStartsWith resource_type "aws_iam_openid_connect_provider" then
    _compare_iam_openid_connect_provider_attributes state_attrs live_attrs
  else []

/-- Model of `_normalise_optional` (events_comparators.py): `None` and `""` are
both mapped to `None`. -/
def _normalise_optional (val : PyVal) : PyVal :=
  if pyEq val .vnone || pyEq val (.vstr "") then .vnone else val

/-- Model of `_normalise_target_optional` (events_comparators.py): `None`, `""`
and `[]` are all mapped to `None`. -/
def _normalise_target_optional (val : PyVal) : PyVal :=
  if pyEq val .vnone || pyEq val (.vstr "") then .vnone
  else match val with
       | .vlist [] => .vnone
       | v => v

/-- Model of `_compare_eventbridge_bus_attributes` (events_comparators.py). -/
def _compare_eventbridge_bus_attributes (state_attrs live_attrs : Bag) :
    List DriftDetail :=
  if !pyEq (pyGet state_attrs "name") (pyGet live_attrs "Name") then
    [⟨"bus_name", pyStr (pyGet state_attrs "name"),
      pyStr (pyGet live_attrs "Name")⟩] else []

/-- Model of `_compare_eventbridge_rule_attributes` (events_comparators.py). -/
def _compare_eventbridge_rule_attributes (state_attrs live_attrs : Bag) :
    List DriftDetail :=
  (if !pyEq (pyGet state_attrs "name") (pyGet live_attrs "Name") then
    [⟨"rule_name", pyStr (pyGet state_attrs "name"),
      pyStr (pyGet live_attrs "Name")⟩] else []) ++
  (if !pyEq (pyGet state_attrs "event_pattern") (pyGet live_attrs "EventPattern") then
    [⟨"event_pattern", pyStr (pyGet state_attrs "event_pattern"),
      pyStr (pyGet live_attrs "EventPattern")⟩] else []) ++
  (if !pyEq (_normalise_optional (pyGet state_attrs "schedule_expression"))
            (_normalise_optional (pyGet live_attrs "ScheduleExpression")) then
    [⟨"schedule_expression", pyStr (pyGet state_attrs "schedule_expression"),
      pyStr (pyGet live_attrs "ScheduleExpression")⟩] else []) ++
  (if !pyEq (_normalise_optional (pyGet state_attrs "description"))
            (_normalise_optional (pyGet live_attrs "Description")) then
    [⟨"description", pyStr (pyGet state_attrs "description"),
      pyStr (pyGet live_attrs "Description")⟩] else []) ++
  (if !pyEq (_normalise_optional (pyGet state_attrs "role_arn"))
            (_normalise_optional (pyGet live_attrs "RoleArn")) then
    [⟨"role_arn", pyStr (pyGet state_attrs "role_arn"),
      pyStr (pyGet live_attrs "RoleArn")⟩] else []) ++
  (if !pyEq (pyGet state_attrs "state") (pyGet live_attrs "State") then
    [⟨"state", pyStr (pyGet state_attrs "state"),
      pyStr (pyGet live_attrs "State")⟩] else [])

/-- One direct-comparison step of the target comparator's first loop. -/
def eventsTargetDirect (state_attrs live_attrs : Bag) (attr : String) :
    List DriftDetail :=
  if !pyEq (pyGet state_attrs attr) (pyGet live_attrs attr) then
    [⟨attr, pyStr (pyGet state_attrs attr), pyStr (pyGet live_attrs attr)⟩] else []

/-- One normalised-comparison step of the target comparator's second loop. -/
def eventsTargetNormalised (state_attrs live_attrs : Bag) (attr : String) :
    List DriftDetail :=
  if !pyEq (_normalise_target_optional (pyGet state_attrs attr))
           (_normalise_target_optional (pyGet live_attrs attr)) then
    [⟨attr, pyStr (pyGet state_attrs attr), pyStr (pyGet live_attrs attr)⟩] else []

/-- Model of `_compare_eventbridge_target_attributes` (events_comparators.py):
`target_id` and `arn` compare directly; `input`, `input_path` and
`input_transformer` compare after `_normalise_target_optional`. -/
def _compare_eventbridge_target_attributes (state_attrs live_attrs : Bag) :
    List DriftDetail :=
  (["target_id", "arn"].map (eventsTargetDirect state_attrs live_attrs)).flatten ++
  (["input", "input_path", "input_transformer"].map
    (eventsTargetNormalised state_attrs live_attrs)).flatten

/-- Model of `compare_events_attributes` (events_comparators.py). -/
def compare_events_attributes (state_attrs live_attrs : Bag)
    (resource_type : String) : List DriftDetail :=
  if strStartsWith resource_type "aws_cloudwatch_event_bus" then
    _compare_eventbridge_bus_attributes state_attrs live_attrs
  else if strStartsWith resource_type "aws_cloudwatch_event_rule" then
    _compare_eventbridge_rule_attributes state_attrs live_attrs
  else if strStartsWith resource_type "aws_cloudwatch_event_target" then
    _compare_eventbridge_target_attributes state_attrs live_attrs
  else []

/-- Model of `_compare_ecs_cluster_attributes` (ecs_comparators.py). -/
def _compare_ecs_cluster_attributes (state_attrs live_attrs : Bag) : List DriftDetail :=
  if !pyEq (pyGet state_attrs "name") (pyGet live_attrs "clusterName") then
    [⟨"cluster_name", pyStr (pyGet state_attrs "name"),
      pyStr (pyGet live_attrs "clusterName")⟩] else []

/-- Model of `_compare_ecs_service_attributes` (ecs_comparators.py). -/
def _compare_ecs_service_attributes (state_attrs live_attrs : Bag) : List DriftDetail :=
  if !pyEq (pyGet state_attrs "name") (pyGet live_attrs "serviceName") then
    [⟨"service_name", pyStr (pyGet state_attrs "name"),
      pyStr (pyGet live_attrs "serviceName")⟩] else []

/-- Model of `compare_ecs_attributes` (ecs_comparators.py). -/
def compare_ecs_attributes (state_attrs live_attrs : Bag) (resource_type : String) :
    List DriftDetail :=
  if strStartsWith resource_type "aws_ecs_cluster" then
    _compare_ecs_cluster_attributes state_attrs live_attrs
  else if strStartsWith resource_type "aws_ecs_service" then
    _compare_ecs_service_attributes state_attrs live_attrs
  else []

/-- Model of `compare_apigateway_attributes` (apigateway_comparators.py). -/
def compare_apigateway_attributes (state_attrs live_attrs : Bag) : List DriftDetail :=
  if !pyEq (pyGet state_attrs "name") (pyGet live_attrs "name") then
    [⟨"api_name", pyStr (pyGet state_attrs "name"),
      pyStr (pyGet live_attrs "name")⟩] else []

/-- Model of `_compare_cloudwatch_dashboard_attributes` (cloudwatch_comparators.py):
compares only when both sides are truthy. -/
def _compare_cloudwatch_dashboard_attributes (state_attrs live_attrs : Bag) :
    List DriftDetail :=
  let state_arn := pyOr (pyGet state_attrs "dashboard_arn") (pyGet state_attrs "DashboardArn")
  let live_arn := pyGet live_attrs "DashboardArn"
  let state_body := pyOr (pyGet state_attrs "dashboard_body") (pyGet state_attrs "DashboardBody")
  let live_body := pyGet live_attrs "DashboardBody"
  (if pyTruthy state_arn && pyTruthy live_arn && !pyEq state_arn live_arn then
    [⟨"DashboardArn", pyStr state_arn, pyStr live_arn⟩] else []) ++
  (if pyTruthy state_body && pyTruthy live_body && !pyEq state_body live_body then
    [⟨"DashboardBody", pyStr state_body, pyStr live_body⟩] else [])

/-- Model of `_compare_cloudwatch_alarm_attributes` (cloudwatch_comparators.py). -/
def _compare_cloudwatch_alarm_attributes (state_attrs live_attrs : Bag) :
    List DriftDetail :=
  if !pyEq (pyGet state_attrs "alarm_name") (pyGet live_attrs "AlarmName") then
    [⟨"alarm_name", pyStr (pyGet state_attrs "alarm_name"),
      pyStr (pyGet live_attrs "AlarmName")⟩] else []

/-- Model of `compare_cloudwatch_attributes` (cloudwatch_comparators.py). -/
def compare_cloudwatch_attributes (state_attrs live_attrs : Bag)
    (resource_type : String) : List DriftDetail :=
  if strStartsWith resource_type "aws_cloudwatch_dashboard" then
    _compare_cloudwatch_dashboard_attributes state_attrs live_attrs
  else if strStartsWith resource_type "aws_cloudwatch_metric_alarm" then
    _compare_cloudwatch_alarm_attributes state_attrs live_attrs
  else []

/-- Model of `compare_rds_attributes` (rds_comparators.py). -/
def compare_rds_attributes (state_attrs live_attrs : Bag) : List DriftDetail :=
  if !pyEq (pyGet state_attrs "db_instance_identifier")
           (pyGet live_attrs "DBInstanceIdentifier") then
    [⟨"db_instance_identifier", pyStr (pyGet state_attrs "db_instance_identifier"),
      pyStr (pyGet live_attrs "DBInstanceIdentifier")⟩] else []

/-- The `live_name` local of `_compare_sqs_queue_attributes`
(sqs_comparators.py): the queue name derived from the observed bag as
the last `:`-segment of a truthy `QueueArn`, or `""`. -/
def sqsLiveName (live_attrs : Bag) : PyVal :=
  if pyTruthy (pyGet live_attrs "QueueArn") then
    pyLastColonSegment (pyGetD live_attrs "QueueArn" (.vstr ""))
  else .vstr ""

/-- Model of `_compare_sqs_queue_attributes` (sqs_comparators.py), continued:
the five field comparisons, each after `str()` conversion. -/
def _compare_sqs_queue_attributes (state_attrs live_attrs : Bag) : List DriftDetail :=
  let state_name := pyGet state_attrs "name"
  let live_name : PyVal := sqsLiveName live_attrs
  (if pyStr state_name ≠ pyStr live_name then
    [⟨"name", pyStr state_name, pyStr live_name⟩] else []) ++
  (if pyStr (pyGet state_attrs "visibility_timeout_seconds")
      ≠ pyStr (pyGet live_attrs "VisibilityTimeout") then
    [⟨"visibility_timeout_seconds", pyStr (pyGet state_attrs "visibility_timeout_seconds"),
      pyStr (pyGet live_attrs "VisibilityTimeout")⟩] else []) ++
  (if pyStr (pyGet state_attrs "message_retention_seconds")
      ≠ pyStr (pyGet live_attrs "MessageRetentionPeriod") then
    [⟨"message_retention_seconds", pyStr (pyGet state_attrs "message_retention_seconds"),
      pyStr (pyGet live_attrs "MessageRetentionPeriod")⟩] else []) ++
  (if pyStr (pyGet state_attrs "max_message_size")
      ≠ pyStr (pyGet live_attrs "MaximumMessageSize") then
    [⟨"max_message_size", pyStr (pyGet state_attrs "max_message_size"),
      pyStr (pyGet live_attrs "MaximumMessageSize")⟩] else []) ++
  (if pyStr (pyGet state_attrs "delay_seconds")
      ≠ pyStr (pyGet live_attrs "DelaySeconds") then
    [⟨"delay_seconds", pyStr (pyGet state_attrs "delay_seconds"),
      pyStr (pyGet live_attrs "DelaySeconds")⟩] else [])

/-- Model of `compare_sqs_attributes` (sqs_comparators.py); the `resource_type`
parameter is accepted and ignored, as in the source. -/
def compare_sqs_attributes (state_attrs live_attrs : Bag)
    (_resource_type : String) : List DriftDetail :=
  _compare_sqs_queue_attributes state_attrs live_attrs

/-- Model of `compare_attributes` (comparators/base.py): the outer registry
dispatch, routing on `resource_type.startswith(...)` with the
more-specific `aws_iam_role_policy` branch ahead of `aws_iam_role`. -/
def compare_attributes (state_attrs live_attrs : Bag) (resource_type : String) :
    List DriftDetail :=
  if strStartsWith resource_type "aws_instance" then
    compare_ec2_attributes state_attrs live_attrs
  else if strStartsWith resource_type "aws_s3_bucket" then
    compare_s3_attributes state_attrs live_attrs
  else if strStartsWith resource_type "aws_dynamodb_table" then
    compare_dynamodb_attributes state_attrs live_attrs
  else if strStartsWith resource_type "aws_lambda_function" then
    compare_lambda_attributes state_attrs live_attrs ""
  else if strStartsWith resource_type "aws_iam_role_policy" then
    compare_iam_attributes state_attrs live_attrs resource_type
  else if strStartsWith resource_type "aws_iam_role"
       || strStartsWith resource_type "aws_iam_policy"
       || strStartsWith resource_type "aws_iam_openid_connect_provider" then
    compare_iam_attributes state_attrs live_attrs resource_type
  else if strStartsWith resource_type "aws_cloudwatch_event_bus"
       || strStartsWith resource_type "aws_cloudwatch_event_rule"
       || strStartsWith resource_type "aws_cloudwatch_event_target" then
    compare_events_attributes state_attrs live_attrs resource_type
  else if strStartsWith resource_type "aws_lambda_permission" then
    compare_lambda_attributes state_attrs live_attrs resource_type
  else if strStartsWith resource_type "aws_ecs_cluster"
       || strStartsWith resource_type "aws_ecs_service" then
    compare_ecs_attributes state_attrs live_attrs resource_type
  else if strStartsWith resource_type "aws_vpc" then
    compare_ec2_attributes state_attrs live_attrs
  else if strStartsWith resource_type "aws_api_gateway_rest_api" then
    compare_apigateway_attributes state_attrs live_attrs
  else if strStartsWith resource_type "aws_cloudwatch_dashboard"
       || strStartsWith resource_type "aws_cloudwatch_metric_alarm" then
    compare_cloudwatch_attributes state_attrs live_attrs resource_type
  else if strStartsWith resource_type "aws_db_instance" then
    compare_rds_attributes state_attrs live_attrs
  else if strStartsWith resource_type "aws_sqs_queue" then
    compare_sqs_attributes state_attrs live_attrs ""
  else []

/-! ## Identity-key extraction on the comparator side
(`src/drift_detector/fetchers/base.py` and the key construction inside
`compare_resources` of `src/drift_detector/comparators/base.py`). -/

/-- The value check repeated throughout `extract_arn_from_attributes`:
truthy, a string, and starting with `arn:aws:`. -/
def validArn (v : PyVal) : Option String :=
  match v with
  | .vstr s => if s ≠ "" && strStartsWith s "arn:aws:" then some s else Option.none
  | _ => Option.none

/-- Model of `extract_arn_from_attributes` (fetchers/base.py).  The Python
function raises `ValueError` when no ARN is found; failure is modelled
as `none`. -/
def extract_arn_from_attributes (attributes : Bag) (resource_type : String) :
    Option String :=
  if strStartsWith resource_type "aws_route_table" then Option.none
  else
    (["arn", "Arn", "ARN"].findSome? (fun f => validArn (pyGet attributes f)))
    <|>
    (if strStartsWith resource_type "aws_lambda_function" then
       validArn (pyOr (pyGet attributes "invoke_arn") (pyGet attributes "function_arn"))
     else Option.none)
    <|>
    validArn (pyGet attributes "id")
    <|>
    (attributes.findSome? (fun kv =>
      if strEndsWith kv.1 "_arn" then validArn kv.2 else Option.none))
    <|>
    (attributes.findSome? (fun kv =>
      if strContainsSub (strLower kv.1) "arn" then validArn kv.2 else Option.none))

/-- A resource block of the parsed Terraform state: type tag, logical
name and the attribute bags of its instances. -/
structure TfResource where
  type : String
  name : String
  instances : List Bag

/-- The parsed Terraform state's `resources` list. -/
abbrev StateData := List TfResource

/-- The observed-resource map: identity key to attribute bag. -/
abbrev LiveMap := List (String × Bag)

/-- Python `key in live_resources`. -/
def liveHasKey (live : LiveMap) (k : String) : Bool :=
  live.any (fun kv => kv.1 = k)

/-- Python `live_resources[key]` (the call sites only index keys that
are present). -/
def liveGet (live : LiveMap) (k : String) : Bag :=
  ((live.find? (fun kv => kv.1 = k)).map Prod.snd).getD []

/-- One drift-report difference entry: the comparator entries carry
`attribute`/`state_value`/`live_value` keys, while the SQS-queue-policy
branch of `compare_resources` builds `name`/`state`/`live` entries whose
values may be `None`. -/
inductive DiffEntry where
  | attrDiff (d : DriftDetail)
  | policyDiff (name : String) (state live : PyVal)
deriving Repr

/-- A drift-report entry.  Entries of type `missing_resource` carry no
`differences` key in Python; that absent key is modelled as `[]`. -/
structure Drift where
  resource_key : String
  drift_type : String
  description : String
  differences : List DiffEntry
deriving Repr

/-- Model of `.split("/")[-1]` applied to a dynamically typed value. -/
def pyLastSlashSegment (v : PyVal) : String :=
  match v with
  | .vstr s => strLastSegment s "/"
  | _ => ""

/-- Model of `.endswith(suffix)` applied to a dynamically typed value. -/
def pyEndsWith (v : PyVal) (suffix : String) : Bool :=
  match v with
  | .vstr s => strEndsWith s suffix
  | _ => false

/-- The live-policy search of the SQS-queue-policy branch of
`compare_resources`: the first live value whose `QueueUrl` equals the
declared `queue_url`, or whose `QueueArn` ends with the queue name
segment of `queue_url`, supplies the live policy. -/
def findLivePolicy (live_resources : LiveMap) (queue_url : PyVal) : PyVal :=
  match live_resources.findSome? (fun kv =>
    let live_val := kv.2
    if pyEq (pyGet live_val "QueueUrl") queue_url then
      some (pyGet live_val "Policy")
    else if pyTruthy queue_url
            && pyEndsWith (pyGetD live_val "QueueArn" (.vstr ""))
                 (pyLastSlashSegment queue_url) then
      some (pyGet live_val "Policy")
    else Option.none) with
  | some p => p
  | Option.none => .vnone

/-- Model of `json.loads` applied to a dynamically typed raw value: a non-string
raises `TypeError`, an unparsable string raises `JSONDecodeError`; both
are modelled as `none`. -/
def loadsOpt (raw : PyVal) : Option PyVal :=
  match raw with
  | .vstr s => jsonLoads s
  | _ => Option.none

/-- The canonicalisation step of the SQS-queue-policy branch: both raw
policies are parsed and re-serialised with sorted keys; if anything in
the `try` block raises, both canonical values fall back to the raw
values. -/
def sqsCanonicalPair (state_policy_raw live_policy_raw : PyVal) : PyVal × PyVal :=
  let stateObj : Option PyVal :=
    if pyTruthy state_policy_raw then loadsOpt state_policy_raw else some .vnone
  let liveObj : Option PyVal :=
    if pyTruthy live_policy_raw then loadsOpt live_policy_raw else some .vnone
  match stateObj, liveObj with
  | some so, some lo =>
      (if pyTruthy so then .vstr (jsonDumps so) else .vnone,
       if pyTruthy lo then .vstr (jsonDumps lo) else .vnone)
  | _, _ => (state_policy_raw, live_policy_raw)

/-- The SQS-queue-policy branch of `compare_resources`, per instance. -/
def sqsPolicyInstanceDrifts (live_resources : LiveMap)
    (resource_type resource_name : String) (state_attributes : Bag) : List Drift :=
  let queue_url := pyGet state_attributes "queue_url"
  let state_policy_raw := pyGet state_attributes "policy"
  let live_policy_raw := findLivePolicy live_resources queue_url
  let pair := sqsCanonicalPair state_policy_raw live_policy_raw
  if !pyEq pair.1 pair.2 then
    let resource_identifier :=
      resource_type ++ "." ++ resource_name ++ " [" ++ pyStr queue_url ++ "]"
    [{ resource_key := resource_identifier
       drift_type := "attribute_drift"
       description := "Policy drift detected for " ++ resource_identifier
       differences := [.policyDiff "policy" pair.1 pair.2] }]
  else []

/-- The per-instance identity key used by the generic branch of
`compare_resources` (comparators/base.py): the ARN from
`extract_arn_from_attributes` with a name+index fallback, then a chain
of composite-key overrides, each guarded by a `startswith` test. -/
def comparatorInstanceKey (resource_type resource_name : String) (idx : Nat)
    (state_attributes : Bag) : String :=
  let base_resource_key := resource_type ++ "." ++ resource_name
  let key0 :=
    match extract_arn_from_attributes state_attributes resource_type with
    | some arn => arn
    | Option.none => base_resource_key ++ "_" ++ toString idx
  let key1 :=
    if strStartsWith resource_type "aws_cloudwatch_event_target" then
      "event_target:" ++ pyStr (pyGetD state_attributes "event_bus_name" (.vstr ""))
        ++ ":" ++ pyStr (pyGetD state_attributes "rule" (.vstr ""))
        ++ ":" ++ pyStr (pyGetD state_attributes "arn" (.vstr ""))
    else key0
  let key2 :=
    if strStartsWith resource_type "aws_lambda_permission" then
      let function_name := pyGetD state_attributes "function_name" (.vstr "")
      let function_name :=
        if pyStartsWith function_name "arn:aws:lambda:" then
          pyLastColonSegment function_name
        else function_name
      "lambda_permission:" ++ pyStr function_name ++ ":"
        ++ pyStr (pyGetD state_attributes "statement_id" (.vstr ""))
    else key1
  let key3 :=
    if strStartsWith resource_type "aws_api_gateway_deployment" then
      "apigw_deployment:" ++ pyStr (pyGetD state_attributes "rest_api_id" (.vstr ""))
        ++ ":" ++ pyStr (pyGetD state_attributes "id" (.vstr ""))
    else key2
  let key4 :=
    if strStartsWith resource_type "aws_api_gateway_integration" then
      "apigw_integration:" ++ pyStr (pyGetD state_attributes "rest_api_id" (.vstr ""))
        ++ ":" ++ pyStr (pyGetD state_attributes "resource_id" (.vstr ""))
        ++ ":" ++ pyStr (pyGetD state_attributes "http_method" (.vstr ""))
    else key3
  let key5 :=
    if strStartsWith resource_type "aws_api_gateway_method" then
      "apigw_method:" ++ pyStr (pyGetD state_attributes "rest_api_id" (.vstr ""))
        ++ ":" ++ pyStr (pyGetD state_attributes "resource_id" (.vstr ""))
        ++ ":" ++ pyStr (pyGetD state_attributes "http_method" (.vstr ""))
    else key4
  let key6 :=
    if strStartsWith resource_type "aws_api_gateway_resource" then
      "apigw_resource:" ++ pyStr (pyGetD state_attributes "rest_api_id" (.vstr ""))
        ++ ":" ++ pyStr (pyGetD state_attributes "resource_id" (.vstr ""))
    else key5
  let key7 :=
    if strStartsWith resource_type "aws_api_gateway_rest_api" then
      "apigw_rest_api:" ++ pyStr (pyGetD state_attributes "id" (.vstr ""))
    else key6
  if strStartsWith resource_type "aws_api_gateway_stage" then
    "apigw_stage:" ++ pyStr (pyGetD state_attributes "rest_api_id" (.vstr ""))
      ++ ":" ++ pyStr (pyGetD state_attributes "stage_name" (.vstr ""))
  else key7

/-- The generic branch of `compare_resources`, per instance: a missing
drift when the key is absent from the live map, otherwise an attribute
drift when `compare_attributes` reports differences. -/
def genericInstanceDrifts (live_resources : LiveMap)
    (resource_type resource_name : String) (idx : Nat)
    (state_attributes : Bag) : List Drift :=
  let unique_resource_key :=
    comparatorInstanceKey resource_type resource_name idx state_attributes
  if !liveHasKey live_resources unique_resource_key then
    [{ resource_key := unique_resource_key
       drift_type := "missing_resource"
       description := "Resource " ++ unique_resource_key
         ++ " exists in state but not in live AWS"
       differences := [] }]
  else
    let live_attributes := liveGet live_resources unique_resource_key
    let differences := compare_attributes state_attributes live_attributes resource_type
    if differences ≠ [] then
      [{ resource_key := unique_resource_key
         drift_type := "attribute_drift"
         description := "Attribute drift detected for " ++ unique_resource_key
         differences := differences.map .attrDiff }]
    else []

/-- The drift list accumulated by `compare_resources` (comparators/base.py). -/
def compareResourcesDrifts (state_data : StateData) (live_resources : LiveMap) :
    List Drift :=
  (state_data.map (fun resource =>
    if strStartsWith resource.type "aws_sqs_queue_policy" then
      (resource.instances.map
        (sqsPolicyInstanceDrifts live_resources resource.type resource.name)).flatten
    else
      (resource.instances.enum.map (fun p =>
        genericInstanceDrifts live_resources resource.type resource.name p.1 p.2)).flatten
  )).flatten

/-- The report returned by `compare_resources`: drift list, count and a
timestamp.  `datetime.now()` is modelled by the explicit `now` input. -/
structure DriftReport where
  drifts : List Drift
  total_drifts : Nat
  timestamp : String

/-- Model of `compare_resources` (comparators/base.py). -/
def compare_resources (state_data : StateData) (live_resources : LiveMap)
    (now : String) : DriftReport :=
  let drifts := compareResourcesDrifts state_data live_resources
  { drifts := drifts, total_drifts := drifts.length, timestamp := now }

/-! ## The aggregator (`src/drift_detector/core.py`)

`detect_drift` re-derives identity keys for every declared instance with
its own per-kind rules (distinct from the comparator-side key logic
above), then classifies keys by set algebra over the declared, live,
drifted and meta key sets. -/

/-- The fallback key `f"{resource_type}.{resource_name}_{idx}"`. -/
def fallbackKey (resource_type resource_name : String) (idx : Nat) : String :=
  resource_type ++ "." ++ resource_name ++ "_" ++ toString idx

/-- The hybrid ARN > ID > fallback key extraction of `detect_drift`
(core.py): the first present-and-truthy field among the ARN spellings,
else among the ID spellings, else the fallback string.  Unlike the
comparator side there is no `arn:aws:` grammar check here. -/
def hybridKey (resource_type resource_name : String) (idx : Nat)
    (attributes : Bag) : PyVal :=
  match ["arn", "Arn", "ARN"].findSome? (fun k =>
      if pyHasKey attributes k && pyTruthy (pyGet attributes k) then
        some (pyGet attributes k)
      else Option.none) with
  | some v => v
  | Option.none =>
    match ["id", "Id", "ID", "instance_id", "InstanceId",
           "resource_id", "ResourceId"].findSome? (fun k =>
        if pyHasKey attributes k && pyTruthy (pyGet attributes k) then
          some (pyGet attributes k)
        else Option.none) with
    | some v => v
    | Option.none => .vstr (fallbackKey resource_type resource_name idx)

/-- The nested search of core.py's `aws_sqs_queue_policy` branch: scan
the state for an `aws_sqs_queue` whose `url`/`queue_url`/`id` equals the
policy's `queue_url` and return its first truthy
`arn`/`queue_arn`/`QueueArn` (the loop breaks only on a truthy ARN, and
the final value is consumed through a truthiness test, so returning
`None` in place of a falsy leftover is observationally identical). -/
def findQueueArn (state_data : StateData) (queue_url : PyVal) : PyVal :=
  match state_data.findSome? (fun res =>
    if res.type = "aws_sqs_queue" then
      res.instances.findSome? (fun attrs =>
        if pyEq (pyGet attrs "url") queue_url
           || pyEq (pyGet attrs "queue_url") queue_url
           || pyEq (pyGet attrs "id") queue_url then
          let queue_arn := pyOr (pyGet attrs "arn")
            (pyOr (pyGet attrs "queue_arn") (pyGet attrs "QueueArn"))
          if pyTruthy queue_arn then some queue_arn else Option.none
        else Option.none)
    else Option.none) with
  | some queue_arn => queue_arn
  | Option.none => .vnone

/-- The declared-side identity key of `detect_drift` (core.py, the large
per-kind `if/elif` chain keyed by exact `resource_type` equality). -/
def stateKey (state_data : StateData) (resource_type resource_name : String)
    (idx : Nat) (attributes : Bag) : PyVal :=
  if resource_type = "aws_lambda_permission" then
    let function_name := pyGet attributes "function_name"
    let statement_id := pyGet attributes "statement_id"
    if pyTruthy function_name && pyTruthy statement_id then
      let function_name :=
        if pyStartsWith function_name "arn:aws:lambda:" then
          pyLastColonSegment function_name
        else function_name
      .vstr ("lambda_permission:" ++ pyStr function_name ++ ":" ++ pyStr statement_id)
    else pyOr statement_id (.vstr (fallbackKey resource_type resource_name idx))
  else if resource_type = "aws_api_gateway_stage" then
    let arn := pyGet attributes "arn"
    let region := pyGet attributes "region"
    let rest_api_id := pyGet attributes "rest_api_id"
    let stage_name := pyGet attributes "stage_name"
    if pyTruthy arn then arn
    else if pyTruthy region && pyTruthy rest_api_id && pyTruthy stage_name then
      .vstr ("arn:aws:apigateway:" ++ pyStr region ++ "::/restapis/"
        ++ pyStr rest_api_id ++ "/stages/" ++ pyStr stage_name)
    else .vstr (fallbackKey resource_type resource_name idx)
  else if resource_type = "aws_api_gateway_integration" then
    let rest_api_id := pyGet attributes "rest_api_id"
    let resource_id := pyGet attributes "resource_id"
    let http_method := pyGet attributes "http_method"
    if pyTruthy rest_api_id && pyTruthy resource_id && pyTruthy http_method then
      .vstr ("agi-" ++ pyStr rest_api_id ++ "-" ++ pyStr resource_id
        ++ "-" ++ pyStr http_method)
    else .vstr (fallbackKey resource_type resource_name idx)
  else if resource_type = "aws_sqs_queue_policy" then
    let arn := pyGet attributes "arn"
    let queue_url := pyGet attributes "queue_url"
    let queue_id := pyGet attributes "id"
    if pyTruthy arn then arn
    else if pyTruthy queue_url then
      let queue_arn := findQueueArn state_data queue_url
      if pyTruthy queue_arn then queue_arn else queue_url
    else if pyTruthy queue_id then queue_id
    else .vstr (fallbackKey resource_type resource_name idx)
  else if resource_type = "aws_api_gateway_rest_api" then
    let arn := pyGet attributes "arn"
    let region := pyGet attributes "region"
    let rest_api_id := pyOr (pyGet attributes "id") (pyGet attributes "rest_api_id")
    if pyTruthy arn then arn
    else if pyTruthy region && pyTruthy rest_api_id then
      .vstr ("arn:aws:apigateway:" ++ pyStr region ++ "::/restapis/" ++ pyStr rest_api_id)
    else .vstr (fallbackKey resource_type resource_name idx)
  else if resource_type = "aws_route_table" then
    let arn := pyGet attributes "arn"
    let region := pyGet attributes "region"
    let account_id := pyGet attributes "account_id"
    let route_table_id := pyGet attributes "id"
    if pyTruthy arn then arn
    else if pyTruthy region && pyTruthy account_id && pyTruthy route_table_id then
      .vstr ("arn:aws:ec2:" ++ pyStr region ++ ":" ++ pyStr account_id
        ++ ":route-table/" ++ pyStr route_table_id)
    else pyOr route_table_id (.vstr (fallbackKey resource_type resource_name idx))
  else if resource_type = "aws_route_table_association" then
    let association_id := pyGet attributes "id"
    if pyTruthy association_id then association_id
    else .vstr (fallbackKey resource_type resource_name idx)
  else if resource_type = "aws_api_gateway_method" then
    let rest_api_id := pyGet attributes "rest_api_id"
    let resource_id := pyGet attributes "resource_id"
    let http_method := pyGet attributes "http_method"
    if pyTruthy rest_api_id && pyTruthy resource_id && pyTruthy http_method then
      .vstr ("agm-" ++ pyStr rest_api_id ++ "-" ++ pyStr resource_id
        ++ "-" ++ pyStr http_method)
    else .vstr (fallbackKey resource_type resource_name idx)
  else if resource_type = "aws_iam_role_policy_attachment" then
    let role_name := pyOr (pyGet attributes "role") (pyGet attributes "role_name")
    let policy_arn := pyGet attributes "policy_arn"
    if pyTruthy role_name && pyTruthy policy_arn then
      .vstr (pyStr role_name ++ "/" ++ pyStr policy_arn)
    else .vstr (fallbackKey resource_type resource_name idx)
  else if resource_type = "aws_cloudwatch_dashboard" then
    let arn := pyGet attributes "arn"
    let dashboard_name := pyOr (pyGet attributes "dashboard_name") (pyGet attributes "id")
    let region := pyGet attributes "region"
    let account_id := pyGet attributes "account_id"
    if pyTruthy arn then arn
    else if pyTruthy dashboard_name && pyTruthy region && pyTruthy account_id then
      .vstr ("arn:aws:cloudwatch:" ++ pyStr region ++ ":" ++ pyStr account_id
        ++ ":dashboard/" ++ pyStr dashboard_name)
    else pyOr dashboard_name (.vstr (fallbackKey resource_type resource_name idx))
  else
    hybridKey resource_type resource_name idx attributes

/-! ### Python set and dict models for the aggregation step

Python sets are modelled as duplicate-free lists in first-insertion
order (CPython's actual hash-based iteration order is unspecified; the
aggregation's set algebra is order-independent, and no theorem below
relies on a particular set-iteration order except where the source
itself iterates a list). -/

/-- Membership of a value in a modelled Python set of values. -/
def pySetMem (v : PyVal) (s : List PyVal) : Bool :=
  s.any (pyEq v)

/-- Model of `set.add`. -/
def pySetAdd (s : List PyVal) (v : PyVal) : List PyVal :=
  if pySetMem v s then s else s ++ [v]

/-- Membership of a (dynamically typed) value in a set of strings; a
non-string value never equals a string. -/
def pyMemStrSet (v : PyVal) (s : List String) : Bool :=
  match v with
  | .vstr x => s.contains x
  | _ => false

/-- Model of `set.add` for a set of strings. -/
def strSetAdd (s : List String) (v : String) : List String :=
  if s.contains v then s else s ++ [v]

/-- Set intersection `a & b` where `b` is a string set, in `a`'s order. -/
def pySetInterStr (a : List PyVal) (b : List String) : List PyVal :=
  a.filter (fun v => pyMemStrSet v b)

/-- Set difference `a - b` over value sets. -/
def pySetDiff (a b : List PyVal) : List PyVal :=
  a.filter (fun v => !pySetMem v b)

/-- Set difference `a - b` where `b` is a string set. -/
def pySetDiffStr (a : List PyVal) (b : List String) : List PyVal :=
  a.filter (fun v => !pyMemStrSet v b)

/-- The `state_resource_key_map` dict: key to
`(resource_type, resource_name, instance_index)`, with Python's
overwrite-on-reassignment semantics. -/
abbrev KeyMap := List (PyVal × (String × String × Nat))

/-- Dict assignment `m[k] = v` (replace the existing entry or append). -/
def keyMapSet (m : KeyMap) (k : PyVal) (v : String × String × Nat) : KeyMap :=
  if m.any (fun kv => pyEq kv.1 k) then
    m.map (fun kv => if pyEq kv.1 k then (kv.1, v) else kv)
  else m ++ [(k, v)]

/-- Dict lookup in the key map. -/
def keyMapGet (m : KeyMap) (k : PyVal) : Option (String × String × Nat) :=
  m.findSome? (fun kv => if pyEq kv.1 k then some kv.2 else Option.none)

/-- Step 4 of `detect_drift`: walk every declared instance, derive its
key with `stateKey`, and accumulate the `all_state_resources` set and
the `state_resource_key_map`. -/
def buildStateKeys (state_data : StateData) : List PyVal × KeyMap :=
  state_data.foldl (fun acc resource =>
    resource.instances.enum.foldl (fun acc2 p =>
      let key := stateKey state_data resource.type resource.name p.1 p.2
      (pySetAdd acc2.1 key, keyMapSet acc2.2 key (resource.type, resource.name, p.1)))
      acc) ([], [])

/-- Model of `drifted_resources`: the set of drift keys with any bracketed
suffix (`" ["`…) stripped. -/
def driftedResources (drifts : List Drift) : List String :=
  drifts.foldl (fun acc d => strSetAdd acc (strFirstSegment d.resource_key " [")) []

/-- Model of `META_RESOURCE_TYPES` (core.py). -/
def META_RESOURCE_TYPES : List String := ["aws_region", "aws_caller_identity"]

/-- A matched-resource descriptor of the report's
`matching_resources` list. -/
structure MatchingResource where
  resource_type : String
  resource_name : String
  aws_live_name : PyVal
  display_name : PyVal
deriving Repr

/-- A meta descriptor of the report's `meta_resources` list. -/
structure MetaResource where
  resource_type : String
  resource_name : String
  value : PyVal
deriving Repr

/-- An entry of the report's `unmatched_undetected_resources` /
`unmatched_resources` lists. -/
structure UnmatchedResource where
  resource_type : String
  resource_name : String
  key : PyVal
deriving Repr

/-- The resource-type-specific extraction of the AWS live display name
(core.py, the `aws_live_name` `if/elif` chain; the final `else` takes
the first present `name`/`Name`/`id`/`Id` field). -/
def awsLiveName (resource_type : String) (live_attributes : Bag) : PyVal :=
  if resource_type = "aws_api_gateway_rest_api" then pyGet live_attributes "name"
  else if resource_type = "aws_cloudwatch_dashboard" then pyGet live_attributes "DashboardName"
  else if resource_type = "aws_dynamodb_table" then pyGet live_attributes "TableName"
  else if resource_type = "aws_ecs_cluster" then pyGet live_attributes "clusterName"
  else if resource_type = "aws_ecs_service" then pyGet live_attributes "serviceName"
  else if resource_type = "aws_iam_role" then pyGet live_attributes "RoleName"
  else if resource_type = "aws_iam_role_policy" then pyGet live_attributes "policy_name"
  else if resource_type = "aws_region" then pyGet live_attributes "RegionName"
  else if resource_type = "aws_sqs_queue" then pyGet live_attributes "QueueName"
  else if resource_type = "aws_sqs_queue_policy" then pyGet live_attributes "QueueUrl"
  else if resource_type = "aws_vpc" then pyGet live_attributes "VpcId"
  else
    match ["name", "Name", "id", "Id"].findSome? (fun k =>
        if pyHasKey live_attributes k then some (pyGet live_attributes k)
        else Option.none) with
    | some v => v
    | Option.none => .vnone

/-- The display-name logic of the matched-resource loop (core.py): a
non-placeholder logical name wins; otherwise the first truthy candidate
among the live name and a fixed list of name-like fields; otherwise
`f"{resource_type}:{resource_key}"`. -/
def displayNamePair (resource_type resource_name : String) (resource_key : PyVal)
    (aws_live_name : PyVal) (live_attributes : Bag) : PyVal × PyVal :=
  let logical_name : PyVal :=
    if resource_name ≠ "" && resource_name ≠ "this" then .vstr resource_name
    else
      let key_candidates : List PyVal :=
        [aws_live_name,
         pyGet live_attributes "function_name",
         pyGet live_attributes "FunctionName",
         pyGet live_attributes "clusterName",
         pyGet live_attributes "serviceName",
         pyGet live_attributes "TableName",
         pyGet live_attributes "RoleName",
         pyGet live_attributes "policy_name",
         pyGet live_attributes "QueueName",
         pyGet live_attributes "id",
         pyGet live_attributes "Id",
         pyGet live_attributes "arn",
         pyGet live_attributes "Arn"]
      match key_candidates.findSome? (fun k =>
          if pyTruthy k then some k else Option.none) with
      | some k => k
      | Option.none => .vstr (resource_type ++ ":" ++ pyStr resource_key)
  let display_name : PyVal :=
    if pyTruthy logical_name && pyTruthy aws_live_name
       && !pyEq logical_name aws_live_name then
      .vstr (pyStr logical_name ++ " (AWS: " ++ pyStr aws_live_name ++ ")")
    else
      pyOr logical_name (pyOr aws_live_name
        (.vstr (resource_type ++ ":" ++ pyStr resource_key)))
  (logical_name, display_name)

/-- The matched-resource loop of `detect_drift`: every string key in
`all_state_resources & all_live_resources` that is not drifted yields a
matched descriptor. -/
def matchingResources (state_inter_live : List PyVal) (drifted : List String)
    (key_map : KeyMap) (live_resources : LiveMap) : List MatchingResource :=
  (state_inter_live.map (fun resource_key =>
    match resource_key with
    | .vstr ks =>
      if pyMemStrSet resource_key drifted then []
      else
        let rtn := (keyMapGet key_map resource_key).getD ("", "", 0)
        let live_attributes := liveGet live_resources ks
        let aws_live_name := awsLiveName rtn.1 live_attributes
        let pair := displayNamePair rtn.1 rtn.2.1 resource_key aws_live_name
          live_attributes
        [{ resource_type := rtn.1
           resource_name := rtn.2.1
           aws_live_name := aws_live_name
           display_name := pair.2 }]
    | _ => [])).flatten

/-- The hybrid ARN > ID > fallback value/key extraction of the
meta-resource loop of `detect_drift` (core.py): the found ARN or ID
serves as both value and key; with neither, the value is the
`"(no id/arn)"` placeholder and the key is the fallback string. -/
def metaValueKey (resource_type resource_name : String) (idx : Nat)
    (attributes : Bag) : PyVal × PyVal :=
  match ["arn", "Arn", "ARN"].findSome? (fun k =>
      if pyHasKey attributes k && pyTruthy (pyGet attributes k) then
        some (pyGet attributes k)
      else Option.none) with
  | some v => (v, v)
  | Option.none =>
    match ["id", "Id", "ID", "instance_id", "InstanceId",
           "resource_id", "ResourceId"].findSome? (fun k =>
        if pyHasKey attributes k && pyTruthy (pyGet attributes k) then
          some (pyGet attributes k)
        else Option.none) with
    | some v => (v, v)
    | Option.none =>
      (.vstr "(no id/arn)", .vstr (fallbackKey resource_type resource_name idx))

/-- The `meta_resources` descriptor list of `detect_drift`: the loop
appends one descriptor per instance of each meta-kind resource, in
document order (appends to a list are modelled as a flattened map). -/
def metaResources (state_data : StateData) : List MetaResource :=
  ((state_data.filter (fun r => META_RESOURCE_TYPES.contains r.type)).map
    (fun r => r.instances.enum.map (fun p =>
      { resource_type := r.type
        resource_name := r.name
        value := (metaValueKey r.type r.name p.1 p.2).1 : MetaResource }))).flatten

/-- The `meta_resource_keys` set of `detect_drift`, accumulated over the
same loop. -/
def metaResourceKeys (state_data : StateData) : List PyVal :=
  state_data.foldl (fun acc resource =>
    if META_RESOURCE_TYPES.contains resource.type then
      resource.instances.enum.foldl (fun acc2 p =>
        pySetAdd acc2 (metaValueKey resource.type resource.name p.1 p.2).2) acc
    else acc) []

/-- The patch step of `detect_drift`: every string key of
`unmatched_undetected` that is known to the key map and not already
reported gains a `missing_resource` drift entry. -/
def patchMissingDrifts (unmatched_undetected : List PyVal) (key_map : KeyMap)
    (drifts : List Drift) : List Drift :=
  unmatched_undetected.foldl (fun acc resource_key =>
    match resource_key with
    | .vstr ks =>
      if (keyMapGet key_map resource_key).isSome then
        if acc.any (fun d => d.resource_key = ks) then acc
        else acc ++ [{ resource_key := ks
                       drift_type := "missing_resource"
                       description := "Resource " ++ ks
                         ++ " exists in state but not in live AWS"
                       differences := [] }]
      else acc
    | _ => acc) drifts

/-- The `unmatched_resources` descriptor list of `detect_drift`. -/
def unmatchedResources (unmatched_undetected : List PyVal) (key_map : KeyMap) :
    List UnmatchedResource :=
  (unmatched_undetected.map (fun resource_key =>
    match resource_key with
    | .vstr _ =>
      match keyMapGet key_map resource_key with
      | some rtn => [{ resource_type := rtn.1
                       resource_name := rtn.2.1
                       key := resource_key : UnmatchedResource }]
      | Option.none => []
    | _ => [])).flatten

/-- Model of `matched_keys` (core.py): the declared keys that are also observed
and not drifted. -/
def matchedKeys (all_state_resources : List PyVal)
    (all_live_resources drifted_resources : List String) : List PyVal :=
  (pySetInterStr all_state_resources all_live_resources).filter
    (fun k => !pyMemStrSet k drifted_resources)

/-- Model of `unmatched` (core.py): declared keys that are neither matched nor
drifted. -/
def unmatchedKeys (all_state_resources : List PyVal)
    (all_live_resources drifted_resources : List String) : List PyVal :=
  pySetDiffStr
    (pySetDiff all_state_resources
      (matchedKeys all_state_resources all_live_resources drifted_resources))
    drifted_resources

/-- Model of `unmatched_undetected` (core.py): declared keys that are neither
matched, drifted, nor meta. -/
def unmatchedUndetectedKeys (all_state_resources : List PyVal)
    (all_live_resources drifted_resources : List String)
    (meta_resource_keys : List PyVal) : List PyVal :=
  pySetDiff
    (pySetDiffStr
      (pySetDiff all_state_resources
        (matchedKeys all_state_resources all_live_resources drifted_resources))
      drifted_resources)
    meta_resource_keys

/-- The summary block of the success-path report of `detect_drift`. -/
structure Summary where
  resource_block_count : Nat
  total_instance_count : Nat
  total_resources : Nat
  drift_count : Nat
  timestamp : String
  matching_resources : List MatchingResource
  skipped_resources : List PyVal
  meta_resources : List MetaResource
  unmatched_undetected_resources : List UnmatchedResource
  unmatched_resources : List UnmatchedResource
deriving Repr

/-- The dictionary returned by `detect_drift`: on the success path
`error` is absent (`none`) and `summary` present; on the error path the
dict is exactly `{"error": msg, "drift_detected": False, "drifts": []}`. -/
structure DriftResult where
  error : Option String
  drift_detected : Bool
  drifts : List Drift
  summary : Option Summary
deriving Repr

/-- Steps 3-6 of `detect_drift` (core.py): run `compare_resources`,
derive the declared key set, classify by set algebra, build the matched,
meta and unmatched descriptor lists, patch missing-resource drifts, and
assemble the report. -/
def detectDriftSuccess (state_data : StateData) (live_resources : LiveMap)
    (now : String) : DriftResult :=
  let drift_report := compare_resources state_data live_resources now
  let resource_block_count := state_data.length
  let total_instance_count := state_data.foldl (fun n r => n + r.instances.length) 0
  let sk := buildStateKeys state_data
  let all_state_resources := sk.1
  let state_resource_key_map := sk.2
  let all_live_resources := live_resources.foldl (fun acc kv => strSetAdd acc kv.1) []
  let drifted_resources := driftedResources drift_report.drifts
  let state_inter_live := pySetInterStr all_state_resources all_live_resources
  let matching_resources := matchingResources state_inter_live drifted_resources
    state_resource_key_map live_resources
  let unmatched := unmatchedKeys all_state_resources all_live_resources
    drifted_resources
  let meta_resources := metaResources state_data
  let meta_resource_keys := metaResourceKeys state_data
  let unmatched_undetected := unmatchedUndetectedKeys all_state_resources
    all_live_resources drifted_resources meta_resource_keys
  let drifts := patchMissingDrifts unmatched_undetected state_resource_key_map
    drift_report.drifts
  let unmatched_resources := unmatchedResources unmatched_undetected
    state_resource_key_map
  { error := Option.none
    drift_detected := drifts.length > 0
    drifts := drifts
    summary := some
      { resource_block_count := resource_block_count
        total_instance_count := total_instance_count
        total_resources := all_state_resources.length
        drift_count := drifted_resources.length
        timestamp := drift_report.timestamp
        matching_resources := matching_resources
        skipped_resources := unmatched
        meta_resources := meta_resources
        unmatched_undetected_resources := unmatched_resources
        unmatched_resources := unmatched_resources } }

/-- Model of `detect_drift` (core.py).  Steps 1-2 — reading and parsing the state
document and fetching live resources — are external collaborators that
may raise; they are modelled as `Except`-valued inputs.  The function
body runs under `try ... except Exception` whose handler returns
`{"error": str(e), "drift_detected": False, "drifts": []}`; no exception
escapes to the caller. -/
def detect_drift (loadState : Except String StateData)
    (fetchLive : StateData → Except String LiveMap) (now : String) : DriftResult :=
  match loadState with
  | .error e =>
      { error := some e, drift_detected := false, drifts := [], summary := Option.none }
  | .ok state_data =>
    match fetchLive state_data with
    | .error e =>
        { error := some e, drift_detected := false, drifts := [], summary := Option.none }
    | .ok live_resources => detectDriftSuccess state_data live_resources now

/-! ## Helper lemmas -/

/-- A successful `startswith` test exposes the string's character list
as the pattern followed by a remainder. -/
theorem startsWith_data {s p : String} (h : strStartsWith s p = true) :
    ∃ r, s.data = p.data ++ r := by
  unfold strStartsWith at h
  rw [List.isPrefixOf_iff_prefix] at h
  obtain ⟨r, hr⟩ := h
  exact ⟨r, hr.symm⟩

/-- Values that Python can place in a set or use as a dict key (the
reconciliation key sets contain only such values: a list- or
dict-valued key would make `set.add` raise). -/
def pyAtomic : PyVal → Bool
  | .vlist _ => false
  | .vdict _ => false
  | _ => true

/-- Python `==` is reflexive on atomic values. -/
theorem pyEq_refl_atomic {v : PyVal} (h : pyAtomic v = true) : pyEq v v = true := by
  cases v <;> simp_all [pyAtomic, pyEq]

/-- Python-equal values are members of the same string sets. -/
theorem pyMemStrSet_congr {k v : PyVal} (h : pyEq k v = true) (s : List String) :
    pyMemStrSet k s = pyMemStrSet v s := by
  cases k <;> cases v <;> simp_all [pyEq, pyMemStrSet]

/-- Membership characterisation of `matchedKeys`. -/
theorem mem_matchedKeys {k : PyVal} {a : List PyVal} {l d : List String} :
    k ∈ matchedKeys a l d ↔
      k ∈ a ∧ pyMemStrSet k l = true ∧ pyMemStrSet k d = false := by
  simp [matchedKeys, pySetInterStr, List.mem_filter, and_assoc, and_comm, and_left_comm]

/-- Membership characterisation of `unmatchedKeys`. -/
theorem mem_unmatchedKeys {k : PyVal} {a : List PyVal} {l d : List String} :
    k ∈ unmatchedKeys a l d ↔
      k ∈ a ∧ pySetMem k (matchedKeys a l d) = false ∧ pyMemStrSet k d = false := by
  simp [unmatchedKeys, pySetDiff, pySetDiffStr, List.mem_filter, and_assoc, and_comm, and_left_comm]

/-- Membership characterisation of `unmatchedUndetectedKeys`. -/
theorem mem_unmatchedUndetectedKeys {k : PyVal} {a m : List PyVal}
    {l d : List String} :
    k ∈ unmatchedUndetectedKeys a l d m ↔
      k ∈ a ∧ pySetMem k (matchedKeys a l d) = false ∧ pyMemStrSet k d = false
        ∧ pySetMem k m = false := by
  simp [unmatchedUndetectedKeys, pySetDiff, pySetDiffStr, List.mem_filter, and_assoc, and_comm, and_left_comm]

/-- A key that is not an observed-key member never tests as a member of
the matched-key set, Python equality included. -/
theorem pySetMem_matched_false {k : PyVal} {a : List PyVal} {l d : List String}
    (h : pyMemStrSet k l = false) : pySetMem k (matchedKeys a l d) = false := by
  rw [Bool.eq_false_iff]
  intro hx
  unfold pySetMem at hx
  rw [List.any_eq_true] at hx
  obtain ⟨v, hv, hkv⟩ := hx
  have h1 := (mem_matchedKeys.mp hv).2.1
  rw [pyMemStrSet_congr hkv l] at h
  exact absurd h1 (by simp [h])

/-- An atomic member of the matched-key list tests as a set member. -/
theorem pySetMem_of_mem {k : PyVal} {s : List PyVal} (hm : k ∈ s)
    (ha : pyAtomic k = true) : pySetMem k s = true := by
  unfold pySetMem
  rw [List.any_eq_true]
  exact ⟨k, hm, pyEq_refl_atomic ha⟩

/-! ## Claim C1 -/

/-- The declared state of the C1 counterexample: a single `aws_region`
data-source instance (a meta kind) whose id also appears as an observed
key. -/
def C1state : StateData :=
  [⟨"aws_region", "current", [[("id", .vstr "eu-west-2"), ("name", .vstr "eu-west-2")]]⟩]

/-- The observed map of the C1 counterexample. -/
def C1live : LiveMap := [("eu-west-2", [("RegionName", .vstr "eu-west-2")])]

/-- C1 counterexample: the classification collections are not pairwise
disjoint.  With one declared `aws_region` instance whose key is observed,
the report lists the very same instance in `matching_resources` AND in
`meta_resources`, and additionally carries a `missing_resource` drift
that refers to it under the comparator pass's differently derived key —
three buckets, not exactly one. -/
theorem C1_counterexample :
    ((detect_drift (Except.ok C1state) (fun _ => Except.ok C1live) "t").summary.map
      (fun s => s.matching_resources.map (fun m => (m.resource_type, m.resource_name))))
      = some [("aws_region", "current")]
    ∧ ((detect_drift (Except.ok C1state) (fun _ => Except.ok C1live) "t").summary.map
      (fun s => s.meta_resources.map (fun m => (m.resource_type, m.resource_name))))
      = some [("aws_region", "current")]
    ∧ (detect_drift (Except.ok C1state) (fun _ => Except.ok C1live) "t").drifts.map
        (fun d => (d.resource_key, d.drift_type))
      = [("aws_region.current_0", "missing_resource")] :=
  ⟨rfl, rfl, rfl⟩

/-- C1 (amended): at the level of the aggregator's own key sets the
classification is a partition — every declared key falls into exactly
one of matched, drifted (attribute-drifted or missing, as keyed by the
comparator pass), unmatched-meta, or unaccounted
(`unmatched_undetected`); the descriptor collections built from these
sets, however, may overlap (see the counterexample). -/
theorem C1_amended_partition (all_state : List PyVal) (all_live drifted : List String)
    (meta : List PyVal) (k : PyVal) (hA : k ∈ all_state) (hatom : pyAtomic k = true) :
    (k ∈ matchedKeys all_state all_live drifted
      ∧ ¬ pyMemStrSet k drifted = true
      ∧ ¬ (k ∈ unmatchedKeys all_state all_live drifted ∧ pySetMem k meta = true)
      ∧ k ∉ unmatchedUndetectedKeys all_state all_live drifted meta)
    ∨ (k ∉ matchedKeys all_state all_live drifted
      ∧ pyMemStrSet k drifted = true
      ∧ ¬ (k ∈ unmatchedKeys all_state all_live drifted ∧ pySetMem k meta = true)
      ∧ k ∉ unmatchedUndetectedKeys all_state all_live drifted meta)
    ∨ (k ∉ matchedKeys all_state all_live drifted
      ∧ ¬ pyMemStrSet k drifted = true
      ∧ (k ∈ unmatchedKeys all_state all_live drifted ∧ pySetMem k meta = true)
      ∧ k ∉ unmatchedUndetectedKeys all_state all_live drifted meta)
    ∨ (k ∉ matchedKeys all_state all_live drifted
      ∧ ¬ pyMemStrSet k drifted = true
      ∧ ¬ (k ∈ unmatchedKeys all_state all_live drifted ∧ pySetMem k meta = true)
      ∧ k ∈ unmatchedUndetectedKeys all_state all_live drifted meta) := by
  by_cases hD : pyMemStrSet k drifted = true
  · refine Or.inr (Or.inl ⟨?_, hD, ?_, ?_⟩)
    · intro hm
      exact absurd (mem_matchedKeys.mp hm).2.2 (by simp [hD])
    · rintro ⟨hu, -⟩
      exact absurd (mem_unmatchedKeys.mp hu).2.2 (by simp [hD])
    · intro hu
      exact absurd (mem_unmatchedUndetectedKeys.mp hu).2.2.1 (by simp [hD])
  · rw [Bool.not_eq_true] at hD
    by_cases hL : pyMemStrSet k all_live = true
    · have hm : k ∈ matchedKeys all_state all_live drifted :=
        mem_matchedKeys.mpr ⟨hA, hL, hD⟩
      have hsm : pySetMem k (matchedKeys all_state all_live drifted) = true :=
        pySetMem_of_mem hm hatom
      refine Or.inl ⟨hm, by simp [hD], ?_, ?_⟩
      · rintro ⟨hu, -⟩
        exact absurd (mem_unmatchedKeys.mp hu).2.1 (by simp [hsm])
      · intro hu
        exact absurd (mem_unmatchedUndetectedKeys.mp hu).2.1 (by simp [hsm])
    · rw [Bool.not_eq_true] at hL
      have hsm : pySetMem k (matchedKeys all_state all_live drifted) = false :=
        pySetMem_matched_false hL
      have hnm : k ∉ matchedKeys all_state all_live drifted := by
        intro hm
        exact absurd (mem_matchedKeys.mp hm).2.1 (by simp [hL])
      have hu : k ∈ unmatchedKeys all_state all_live drifted :=
        mem_unmatchedKeys.mpr ⟨hA, hsm, hD⟩
      by_cases hM : pySetMem k meta = true
      · refine Or.inr (Or.inr (Or.inl ⟨hnm, by simp [hD], ⟨hu, hM⟩, ?_⟩))
        intro huu
        exact absurd (mem_unmatchedUndetectedKeys.mp huu).2.2.2 (by simp [hM])
      · rw [Bool.not_eq_true] at hM
        refine Or.inr (Or.inr (Or.inr ⟨hnm, by simp [hD], ?_, ?_⟩))
        · rintro ⟨-, hM2⟩
          exact absurd hM2 (by simp [hM])
        · exact mem_unmatchedUndetectedKeys.mpr ⟨hA, hsm, hD, hM⟩

/-- C1 witness: the partition theorem applied to a concrete declared
key that is observed and neither drifted nor meta. -/
theorem C1_amended_partition_witness :
    (PyVal.vstr "k" ∈ matchedKeys [.vstr "k"] ["k"] []
      ∧ ¬ pyMemStrSet (.vstr "k") [] = true
      ∧ ¬ (PyVal.vstr "k" ∈ unmatchedKeys [.vstr "k"] ["k"] []
            ∧ pySetMem (.vstr "k") [] = true)
      ∧ PyVal.vstr "k" ∉ unmatchedUndetectedKeys [.vstr "k"] ["k"] [] [])
    ∨ (PyVal.vstr "k" ∉ matchedKeys [.vstr "k"] ["k"] []
      ∧ pyMemStrSet (.vstr "k") [] = true
      ∧ ¬ (PyVal.vstr "k" ∈ unmatchedKeys [.vstr "k"] ["k"] []
            ∧ pySetMem (.vstr "k") [] = true)
      ∧ PyVal.vstr "k" ∉ unmatchedUndetectedKeys [.vstr "k"] ["k"] [] [])
    ∨ (PyVal.vstr "k" ∉ matchedKeys [.vstr "k"] ["k"] []
      ∧ ¬ pyMemStrSet (.vstr "k") [] = true
      ∧ (PyVal.vstr "k" ∈ unmatchedKeys [.vstr "k"] ["k"] []
            ∧ pySetMem (.vstr "k") [] = true)
      ∧ PyVal.vstr "k" ∉ unmatchedUndetectedKeys [.vstr "k"] ["k"] [] [])
    ∨ (PyVal.vstr "k" ∉ matchedKeys [.vstr "k"] ["k"] []
      ∧ ¬ pyMemStrSet (.vstr "k") [] = true
      ∧ ¬ (PyVal.vstr "k" ∈ unmatchedKeys [.vstr "k"] ["k"] []
            ∧ pySetMem (.vstr "k") [] = true)
      ∧ PyVal.vstr "k" ∈ unmatchedUndetectedKeys [.vstr "k"] ["k"] [] []) :=
  C1_amended_partition [.vstr "k"] ["k"] [] [] (.vstr "k")
    (List.mem_singleton.mpr rfl) rfl

/-! ## Claim C2 -/

/-- An `aws_api_gateway_integration` attribute bag carrying
`rest_api_id`, `resource_id` and `http_method`. -/
def C2bag : Bag :=
  [("rest_api_id", .vstr "r"), ("resource_id", .vstr "x"), ("http_method", .vstr "GET")]

/-- C2: the two key-derivation call sites disagree.  For the same
`aws_api_gateway_integration` bag, `detect_drift`'s declared-side
extraction produces `agi-r-x-GET` while `compare_resources` produces
`apigw_integration:r:x:GET` — the shared-identity invariant the spec
requires does not hold in the code. -/
theorem C2_keys_disagree :
    stateKey [] "aws_api_gateway_integration" "this" 0 C2bag = .vstr "agi-r-x-GET"
    ∧ comparatorInstanceKey "aws_api_gateway_integration" "this" 0 C2bag
        = "apigw_integration:r:x:GET"
    ∧ ("agi-r-x-GET" : String) ≠ "apigw_integration:r:x:GET" :=
  ⟨rfl, rfl, by decide⟩

/-! ## Claim C3 -/

/-- C3 counterexample: the SQS comparator applied to the empty bag on
both sides reports a `name` drift (`str(None)` versus the empty
`QueueArn`-derived name), so `compare(kind, bag, bag)` is not `[]`. -/
theorem C3_counterexample : _compare_sqs_queue_attributes [] [] ≠ [] := by
  intro h
  exact List.cons_ne_nil _ _ h

/-- C3 (amended): for the SQS queue comparator, comparing a bag with
itself yields `[]` exactly when each declared-vocabulary field
stringifies equal to its observed-vocabulary counterpart in the same
bag; it does not hold for every bag. -/
theorem C3_amended_self_compare (b : Bag) :
    _compare_sqs_queue_attributes b b = [] ↔
      (pyStr (pyGet b "name") = pyStr (sqsLiveName b)
       ∧ pyStr (pyGet b "visibility_timeout_seconds") = pyStr (pyGet b "VisibilityTimeout")
       ∧ pyStr (pyGet b "message_retention_seconds") = pyStr (pyGet b "MessageRetentionPeriod")
       ∧ pyStr (pyGet b "max_message_size") = pyStr (pyGet b "MaximumMessageSize")
       ∧ pyStr (pyGet b "delay_seconds") = pyStr (pyGet b "DelaySeconds")) := by
  simp [_compare_sqs_queue_attributes, List.append_eq_nil, ite_eq_right_iff]

/-! ## Claim C4 -/

/-- The spec's match-scenario input: declared queue with
`arn: "arn:x:q1"` and `visibility_timeout_seconds: 30`, no `name`. -/
def C4state : StateData :=
  [⟨"aws_sqs_queue", "q",
    [[("arn", .vstr "arn:x:q1"), ("visibility_timeout_seconds", .vint 30)]]⟩]

/-- The spec's match-scenario observed map. -/
def C4live : LiveMap :=
  [("arn:x:q1", [("QueueArn", .vstr "arn:x:q1"), ("VisibilityTimeout", .vstr "30")])]

/-- C4 counterexample: on the spec's scenario the run does NOT classify
the instance as matched with zero differences — `"arn:x:q1"` fails the
comparator side's `arn:aws:` grammar check, so the instance is keyed by
fallback, misses the observed map, and yields a `missing_resource`
drift with `drift_detected = True`. -/
theorem C4_counterexample :
    (detect_drift (Except.ok C4state) (fun _ => Except.ok C4live) "t").drifts.map
      (fun d => (d.resource_key, d.drift_type))
      = [("aws_sqs_queue.q_0", "missing_resource")]
    ∧ (detect_drift (Except.ok C4state) (fun _ => Except.ok C4live) "t").drift_detected
      = true :=
  ⟨rfl, rfl⟩

/-- The amended scenario: the declared bag also carries `name: "q1"`
and an `arn:aws:`-grammar ARN used consistently on both sides. -/
def C4stateAmended : StateData :=
  [⟨"aws_sqs_queue", "q",
    [[("name", .vstr "q1"), ("arn", .vstr "arn:aws:sqs:q1"),
      ("visibility_timeout_seconds", .vint 30)]]⟩]

/-- The amended scenario's observed map. -/
def C4liveAmended : LiveMap :=
  [("arn:aws:sqs:q1",
    [("QueueArn", .vstr "arn:aws:sqs:q1"), ("VisibilityTimeout", .vstr "30")])]

/-- C4 (amended): with `name: "q1"` and a well-formed AWS ARN, the
instance is classified matched with zero attribute differences — in
particular the numeric `30` and the string `"30"` compare equal after
`str()` coercion — and no drift is reported. -/
theorem C4_amended_match :
    compare_attributes
      [("name", .vstr "q1"), ("arn", .vstr "arn:aws:sqs:q1"),
       ("visibility_timeout_seconds", .vint 30)]
      [("QueueArn", .vstr "arn:aws:sqs:q1"), ("VisibilityTimeout", .vstr "30")]
      "aws_sqs_queue" = []
    ∧ (detect_drift (Except.ok C4stateAmended) (fun _ => Except.ok C4liveAmended) "t").drifts
      = []
    ∧ (detect_drift (Except.ok C4stateAmended) (fun _ => Except.ok C4liveAmended)
        "t").drift_detected = false
    ∧ ((detect_drift (Except.ok C4stateAmended) (fun _ => Except.ok C4liveAmended)
        "t").summary.map (fun s =>
          s.matching_resources.map (fun m => (m.resource_type, m.resource_name))))
      = some [("aws_sqs_queue", "q")] :=
  ⟨rfl, rfl, rfl, rfl⟩

/-! ## Claim C5 -/

/-- C5 counterexample: the SQS comparator does not treat an absent
field and an explicit empty string as equal — a bag with
`delay_seconds` absent against a bag with `DelaySeconds: ""` produces a
`delay_seconds` difference (`"None"` vs `""`). -/
theorem C5_counterexample :
    _compare_sqs_queue_attributes [] [("DelaySeconds", .vstr "")]
      = [⟨"name", "None", ""⟩, ⟨"delay_seconds", "None", ""⟩]
    ∧ (_compare_sqs_queue_attributes [] [("DelaySeconds", .vstr "")]).any
        (fun d => d.attr = "delay_seconds") = true :=
  ⟨rfl, rfl⟩

/-- C5 (amended): the null/empty normalisation is applied only by the
EventBridge comparators.  For the EventBridge target comparator, when
each of `input`, `input_path` and `input_transformer` normalises to
unset on both sides (absent, `null`, `""` or `[]`) and `target_id` and
`arn` agree, no difference is reported. -/
theorem C5_amended_events_normalised (s l : Bag)
    (h1 : _normalise_target_optional (pyGet s "input") = .vnone)
    (h2 : _normalise_target_optional (pyGet l "input") = .vnone)
    (h3 : _normalise_target_optional (pyGet s "input_path") = .vnone)
    (h4 : _normalise_target_optional (pyGet l "input_path") = .vnone)
    (h5 : _normalise_target_optional (pyGet s "input_transformer") = .vnone)
    (h6 : _normalise_target_optional (pyGet l "input_transformer") = .vnone)
    (h7 : pyEq (pyGet s "target_id") (pyGet l "target_id") = true)
    (h8 : pyEq (pyGet s "arn") (pyGet l "arn") = true) :
    _compare_eventbridge_target_attributes s l = [] := by
  simp [_compare_eventbridge_target_attributes, eventsTargetDirect,
    eventsTargetNormalised, h1, h2, h3, h4, h5, h6, h7, h8, pyEq]

/-- C5 witness: a bag with the three optional fields absent against a
bag carrying them as `""`, `null` and `[]` compares clean. -/
theorem C5_amended_witness :
    _compare_eventbridge_target_attributes []
      [("input", .vstr ""), ("input_path", .vnone),
       ("input_transformer", .vlist [])] = [] :=
  C5_amended_events_normalised _ _ rfl rfl rfl rfl rfl rfl rfl rfl

/-! ## Claim C6 -/

/-- C6: comparator dispatch resolves the more-specific
`aws_iam_role_policy` prefix before the general `aws_iam_role` one.
For every pair of bags, any resource type beginning with
`aws_iam_role_policy` is routed to the inline-role-policy comparator
(`_compare_iam_role_policy_attributes`) and never to the generic IAM
role comparator. -/
theorem C6_specific_before_general (s l : Bag) (t : String)
    (h : strStartsWith t "aws_iam_role_policy" = true) :
    compare_attributes s l t = _compare_iam_role_policy_attributes s l := by
  obtain ⟨r, hr⟩ := startsWith_data h
  have h1 : strStartsWith t "aws_instance" = false := by
    unfold strStartsWith; rw [hr]; rfl
  have h2 : strStartsWith t "aws_s3_bucket" = false := by
    unfold strStartsWith; rw [hr]; rfl
  have h3 : strStartsWith t "aws_dynamodb_table" = false := by
    unfold strStartsWith; rw [hr]; rfl
  have h4 : strStartsWith t "aws_lambda_function" = false := by
    unfold strStartsWith; rw [hr]; rfl
  simp [compare_attributes, compare_iam_attributes, h, h1, h2, h3, h4]

/-- C6 witness: the dispatch theorem applied to the concrete type
`aws_iam_role_policy_x`. -/
theorem C6_witness :
    strStartsWith "aws_iam_role_policy_x" "aws_iam_role_policy" = true
    ∧ compare_attributes [] [] "aws_iam_role_policy_x"
        = _compare_iam_role_policy_attributes [] [] :=
  ⟨rfl, C6_specific_before_general [] [] "aws_iam_role_policy_x" rfl⟩

/-! ## Claim C7 -/

/-- C7 counterexample: with a live-side policy string that is not valid
JSON (`"abc"`) and a state-side policy that parses to the same string
(`"\"abc\""`), the raw strings differ yet NO difference is reported —
the live side is never parsed, so the claimed raw-string fallback does
not govern a malformed live side. -/
theorem C7_counterexample :
    jsonLoads "abc" = Option.none
    ∧ ("\"abc\"" : String) ≠ "abc"
    ∧ _compare_iam_role_policy_attributes [("policy", .vstr "\"abc\"")]
        [("policy", .vstr "abc")] = [] :=
  ⟨rfl, by decide, rfl⟩

/-- C7 (amended): when the STATE-side policy is a truthy string that
fails JSON parsing (and the role and policy names agree), the
comparator never raises and falls back to a raw comparison, reporting a
`policy_document` difference exactly when the raw values differ; the
live side is never parsed. -/
theorem C7_amended_state_side (s l : Bag) (t : String)
    (hpol : pyGet s "policy" = .vstr t)
    (ht : t ≠ "")
    (hparse : jsonLoads t = Option.none)
    (hrole : pyEq (pyGet s "role") (pyGet l "role_name") = true)
    (hname : pyEq (pyGet s "name") (pyGet l "policy_name") = true) :
    _compare_iam_role_policy_attributes s l =
      (if pyEq (.vstr t) (pyGet l "policy") = true then []
       else [⟨"policy_document", t, pyStr (pyGet l "policy")⟩]) := by
  cases hpe : pyEq (.vstr t) (pyGet l "policy") <;>
    simp [_compare_iam_role_policy_attributes, iamPolicyDocDiffs, hpol, hparse,
      hrole, hname, hpe, pyTruthy, pyStr, ht]

/-- C7 witness: a concrete unparsable state policy against a different
raw live value yields exactly the raw-comparison difference. -/
theorem C7_amended_witness :
    _compare_iam_role_policy_attributes [("policy", .vstr "not json")]
      [("policy", .vstr "other")]
      = [⟨"policy_document", "not json", "other"⟩] := by
  have h := C7_amended_state_side [("policy", .vstr "not json")]
    [("policy", .vstr "other")] "not json" rfl (by decide) rfl rfl rfl
  simpa using h

/-! ## Claim C8 -/

/-- Lexicographic `≤` on character lists (code-point order, as Python
compares strings). -/
def charListLe : List Char → List Char → Bool
  | [], _ => true
  | _ :: _, [] => false
  | a :: as, b :: bs =>
      if a < b then true else if b < a then false else charListLe as bs

/-- String `≤` in Python's code-point order. -/
def strLeB (a b : String) : Bool := charListLe a.data b.data

/-- The spec's ordering requirement, as a check: a descriptor list is
sorted by the (kind, name) pair. -/
def sortedByKindName : List (String × String) → Bool
  | [] => true
  | [_] => true
  | a :: b :: rest =>
      (if a.1 = b.1 then strLeB a.2 b.2 else strLeB a.1 b.1)
        && sortedByKindName (b :: rest)

/-- Two meta resources declared in reverse-alphabetical kind order. -/
def C8state : StateData :=
  [⟨"aws_region", "current", [[("id", .vstr "eu-west-2")]]⟩,
   ⟨"aws_caller_identity", "current", [[("id", .vstr "123")]]⟩]

/-- C8 counterexample: the meta descriptors come out in desired-state
document order, not sorted by kind — `aws_region` precedes
`aws_caller_identity` because it was declared first (no sorting exists
anywhere in the aggregator). -/
theorem C8_counterexample :
    ((detect_drift (Except.ok C8state) (fun _ => Except.ok []) "t").summary.map
      (fun s => s.meta_resources.map (fun m => (m.resource_type, m.resource_name))))
      = some [("aws_region", "current"), ("aws_caller_identity", "current")]
    ∧ sortedByKindName
        [("aws_region", "current"), ("aws_caller_identity", "current")] = false :=
  ⟨rfl, rfl⟩

/-- The spec-side description of the order the code actually produces:
one (kind, name) pair per meta instance, in document order. -/
def metaDocOrder (state_data : StateData) : List (String × String) :=
  ((state_data.filter (fun r => META_RESOURCE_TYPES.contains r.type)).map
    (fun r => r.instances.map (fun _ => (r.type, r.name)))).flatten

/-- Constant-valued maps only depend on length. -/
theorem map_const_replicate {α β : Type} (l : List α) (c : β) :
    l.map (fun _ => c) = List.replicate l.length c := by
  induction l <;> simp [*, List.replicate_succ]

/-- The (kind, name) projection of the meta descriptor list is the
document-order traversal of the meta-kind instances. -/
theorem metaResources_proj (sd : StateData) :
    (metaResources sd).map (fun m => (m.resource_type, m.resource_name))
      = metaDocOrder sd := by
  unfold metaResources metaDocOrder
  induction sd with
  | nil => rfl
  | cons r rest ih =>
    by_cases hm : META_RESOURCE_TYPES.contains r.type
    · simp only [List.filter_cons, hm, if_true, List.map_cons, List.flatten_cons,
        List.map_append, ih]
      congr 1
      rw [List.map_map]
      show r.instances.enum.map (fun _ => (r.type, r.name)) = _
      rw [map_const_replicate, map_const_replicate, List.enum_length]
    · simp only [List.filter_cons, hm, if_false, Bool.false_eq_true, ih]

/-- C8 (amended): the meta descriptors preserve desired-state document
order — the projection of every successful run's `meta_resources` to
(kind, name) equals the document-order traversal of the meta-kind
instances; no (kind, display-name) sorting is applied. -/
theorem C8_amended_meta_doc_order (sd : StateData) (lv : LiveMap) (now : String) :
    ((detect_drift (Except.ok sd) (fun _ => Except.ok lv) now).summary.map
      (fun s => s.meta_resources.map (fun m => (m.resource_type, m.resource_name))))
      = some (metaDocOrder sd) := by
  show some ((metaResources sd).map (fun m => (m.resource_type, m.resource_name)))
    = some (metaDocOrder sd)
  rw [metaResources_proj]

/-! ## Claim C9 -/

/-- C9: `detect_drift` is total over its inputs.  An exception raised by
the collaborators (state download/parse, live fetch) is caught and the
function returns `{"error": message, "drift_detected": False,
"drifts": []}`; every result is either error-shaped like that or
error-free — no exception propagates to the caller. -/
theorem C9_exception_handling (fetchLive : StateData → Except String LiveMap)
    (now : String) :
    (∀ e, detect_drift (Except.error e) fetchLive now =
      { error := some e, drift_detected := false, drifts := []
        summary := Option.none }) ∧
    (∀ sd e, fetchLive sd = Except.error e →
      detect_drift (Except.ok sd) fetchLive now =
        { error := some e, drift_detected := false, drifts := []
          summary := Option.none }) ∧
    (∀ loadState, (detect_drift loadState fetchLive now).error = Option.none
      ∨ ((detect_drift loadState fetchLive now).drift_detected = false
          ∧ (detect_drift loadState fetchLive now).drifts = [])) := by
  refine ⟨fun e => rfl, fun sd e h => by simp [detect_drift, h], fun loadState => ?_⟩
  cases loadState with
  | error e => exact Or.inr ⟨rfl, rfl⟩
  | ok sd =>
    cases hf : fetchLive sd with
    | error e => simp [detect_drift, hf]
    | ok lv => simp [detect_drift, hf, detectDriftSuccess]

/-- C9 witness: a failing fetch collaborator produces exactly the error
dictionary. -/
theorem C9_witness :
    detect_drift (Except.ok []) (fun _ => Except.error "boom") "t" =
      { error := some "boom", drift_detected := false, drifts := []
        summary := Option.none } :=
  (C9_exception_handling (fun _ => Except.error "boom") "t").2.1 [] "boom" rfl

/-! ## Claim C10 -/

/-- C10: in every dictionary `detect_drift` returns — success or error
path — `drift_detected` is `True` exactly when the `drifts` list is
non-empty. -/
theorem C10_drift_detected_iff (loadState : Except String StateData)
    (fetchLive : StateData → Except String LiveMap) (now : String) :
    (detect_drift loadState fetchLive now).drift_detected = true
      ↔ (detect_drift loadState fetchLive now).drifts ≠ [] := by
  cases loadState with
  | error e => simp [detect_drift]
  | ok sd =>
    cases hf : fetchLive sd with
    | error e => simp [detect_drift, hf]
    | ok lv =>
      simp only [detect_drift, hf, detectDriftSuccess]
      rw [decide_eq_true_iff]
      exact ⟨fun h => List.length_pos.mp h, fun h => List.length_pos.mpr h⟩

end DriftSpec
